import Mathlib

/-!
Shallow embedding of the UpToDead weekly-activity tracker (src/src/App.jsx).

The app consists of a pure ISO-week-key calculator (`getWeekKey`), a prompt
builder plus model-call wrapper (`createAiSummary`), a pure week filter
(`weekEntries`), and three event handlers (`handleCreateTeam`,
`handleAddEntry`, `handleGenerateSummary`).  External effects (the Firestore
writes and the HTTP fetch) are modelled as oracle parameters: the outcome the
external service would produce is passed in, and each handler returns
`Except String (AppState × List Write)` where `Except.error` models an
exception escaping the handler uncaught, and the `List Write` records the
documents successfully written to the store during the call.
-/

namespace UpToDead

/-- Days since 1970-01-01 of a proleptic Gregorian date (month 1..12).
Embeds the day arithmetic performed by `Date.UTC(y, m, d)` in `getWeekKey`. -/
def daysFromCivil (y : Int) (m d : Nat) : Int :=
  let y' := if m ≤ 2 then y - 1 else y
  let era := Int.fdiv y' 400
  let yoe := (y' - era * 400).toNat
  let mp := if m > 2 then m - 3 else m + 9
  let doy := (153 * mp + 2) / 5 + d - 1
  let doe := yoe * 365 + yoe / 4 - yoe / 100 + doy
  era * 146097 + (doe : Int) - 719468

/-- Calendar year of a day count (days since 1970-01-01); embeds
`getUTCFullYear()` on the shifted date inside `getWeekKey`. -/
def yearFromDays (z : Int) : Int :=
  let z' := z + 719468
  let era := Int.fdiv z' 146097
  let doe := (z' - era * 146097).toNat
  let yoe := (doe - doe / 1460 + doe / 36524 - doe / 146096) / 365
  let y := (yoe : Int) + era * 400
  let doy := doe - (365 * yoe + yoe / 4 - yoe / 100)
  let mp := (5 * doy + 2) / 153
  let m := if mp < 10 then mp + 3 else mp - 9
  if m ≤ 2 then y + 1 else y

/-- `String(weekNo).padStart(2, '0')`. -/
def pad2 (n : Nat) : String :=
  let s := toString n
  if s.length < 2 then "0" ++ s else s

/-- `getWeekKey` from App.jsx: normalize the date to UTC, shift to the
Thursday of its ISO week (`dayNum = getUTCDay() || 7`, shift by
`4 - dayNum`), take that date's year as the ISO week-year, and compute the
week number as `ceil((daysSinceJan1 + 1) / 7)`, formatted `YYYY-Www`. -/
def getWeekKey (year : Int) (month day : Nat) : String :=
  let d0 := daysFromCivil year month day
  let jsDay := Int.emod (d0 + 4) 7
  let dayNum := if jsDay = 0 then 7 else jsDay
  let d1 := d0 + 4 - dayNum
  let isoYear := yearFromDays d1
  let yearStart := daysFromCivil isoYear 1 1
  let weekNo := ((d1 - yearStart).toNat + 7) / 7
  toString isoYear ++ "-W" ++ pad2 weekNo

/-- A team document reference held in `activeTeam` state. -/
structure Team where
  id : String
  name : String
deriving DecidableEq, Repr

/-- A weekly-input document as cached in the `entries` state list. -/
structure Entry where
  id : String
  memberName : String
  update : String
  weekKey : String
deriving DecidableEq, Repr

/-- The React component state of `App`. -/
structure AppState where
  teamName : String
  activeTeam : Option Team
  weekKey : String
  memberName : String
  update : String
  entries : List Entry
  loadingAi : Bool
  error : String
deriving DecidableEq, Repr

/-- The ambient imports from `./firebase`: whether `db` is non-null and the
`firebaseConfigError` string (empty string models a falsy value). -/
structure Env where
  db : Bool
  firebaseConfigError : String
deriving DecidableEq, Repr

/-- `firebaseConfigError || 'Firebase is not configured.'`. -/
def storeError (env : Env) : String :=
  if env.firebaseConfigError = "" then "Firebase is not configured." else
    env.firebaseConfigError

/-- JavaScript `String.prototype.trim`: remove whitespace from both ends of
the string (written over the character list so that it evaluates by
reduction). -/
def jsTrim (s : String) : String :=
  ⟨((s.data.dropWhile Char.isWhitespace).reverse.dropWhile
      Char.isWhitespace).reverse⟩

/-- A document successfully written to the store by `addDoc`. -/
inductive Write where
  | team (name : String)
  | weeklyInput (teamId memberName update weekKey : String)
  | summary (teamId weekKey content : String)
deriving DecidableEq, Repr

/-- Outcome of the `fetch` to the inference endpoint: the promise rejects, the
response has `!response.ok` (carrying the body text), or it succeeds and the
optional path `candidates[0].content.parts[0].text` yields `some text` or
`none`. -/
inductive FetchOutcome where
  | reject (msg : String)
  | httpError (body : String)
  | success (text : Option String)
deriving DecidableEq, Repr

/-- `!apiKey`: the env value is absent or the empty string. -/
def keyMissing : Option String → Bool
  | none => true
  | some k => k = ""

/-- The prompt template literal built inside `createAiSummary`. -/
def summaryPrompt (teamName weekKey : String) (updates : List Entry) : String :=
  "You are a project manager assistant. Summarize these weekly updates for team "
    ++ teamName
    ++ " in concise bullet points with:\n1) Wins\n2) Risks\n3) Next week focus\n\nWeek: "
    ++ weekKey
    ++ "\n\nUpdates:\n"
    ++ String.intercalate "\n"
        (updates.map (fun item => "- " ++ item.memberName ++ ": " ++ item.update))

/-- `createAiSummary` from App.jsx: throw if the API key is missing, build the
prompt, perform the fetch (modelled by the oracle `doFetch` applied to the
prompt), throw `AI request failed: <body>` on a non-ok response, and otherwise
return the extracted text or the fallback `"No summary returned."`.
`Except.error` models a thrown exception. -/
def createAiSummary (apiKey : Option String) (teamName weekKey : String)
    (updates : List Entry) (doFetch : String → FetchOutcome) :
    Except String String :=
  if keyMissing apiKey then
    .error "Missing VITE_GEMINI_API_KEY in .env file."
  else
    match doFetch (summaryPrompt teamName weekKey updates) with
    | .reject msg => .error msg
    | .httpError body => .error ("AI request failed: " ++ body)
    | .success none => .ok "No summary returned."
    | .success (some text) => .ok text

/-- The `weekEntries` memo: `entries.filter((item) => item.weekKey === weekKey)`. -/
def weekEntries (entries : List Entry) (weekKey : String) : List Entry :=
  entries.filter (fun item => item.weekKey == weekKey)

/-- `handleCreateTeam`: clear the error slot, validate the trimmed team name,
check the store handle, then `await addDoc` (outcome supplied by `writeTeam`,
whose `.ok` value is the generated team id).  The `addDoc` call is not wrapped
in try/catch, so a failed write escapes as `Except.error`. -/
def handleCreateTeam (env : Env) (writeTeam : Except String String)
    (s : AppState) : Except String (AppState × List Write) :=
  let s := { s with error := "" }
  if (jsTrim s.teamName) = "" then
    .ok ({ s with error := "Team name is required." }, [])
  else if env.db = false then
    .ok ({ s with error := storeError env }, [])
  else
    match writeTeam with
    | .error msg => .error msg
    | .ok teamId =>
        .ok ({ s with activeTeam := some ⟨teamId, (jsTrim s.teamName)⟩,
                      teamName := "" },
             [Write.team (jsTrim s.teamName)])

/-- `handleAddEntry`: clear the error slot, require an active team, check the
store handle, validate trimmed member name and update, then `await addDoc`
(outcome supplied by `writeInput`) writing the trimmed fields and the weekKey
verbatim; on success clear only the update field.  The `addDoc` call is not
wrapped in try/catch, so a failed write escapes as `Except.error`. -/
def handleAddEntry (env : Env) (writeInput : Except String Unit)
    (s : AppState) : Except String (AppState × List Write) :=
  let s := { s with error := "" }
  match s.activeTeam with
  | none => .ok ({ s with error := "Create a team first." }, [])
  | some team =>
    if env.db = false then
      .ok ({ s with error := storeError env }, [])
    else if (jsTrim s.memberName) = "" ∨ (jsTrim s.update) = "" then
      .ok ({ s with error := "Member name and update are required." }, [])
    else
      match writeInput with
      | .error msg => .error msg
      | .ok _ =>
          .ok ({ s with update := "" },
               [Write.weeklyInput team.id (jsTrim s.memberName) (jsTrim s.update)
                  s.weekKey])

/-- `handleGenerateSummary`: clear the error slot, require an active team,
check the store handle, require a non-empty filtered week-entry list, then run
`createAiSummary` and the summary `addDoc` inside try/catch (any thrown message
lands in the error slot) with a finally that clears `loadingAi`. -/
def handleGenerateSummary (env : Env) (apiKey : Option String)
    (doFetch : String → FetchOutcome) (writeSummary : Except String Unit)
    (s : AppState) : Except String (AppState × List Write) :=
  let s := { s with error := "" }
  match s.activeTeam with
  | none => .ok ({ s with error := "Create a team first." }, [])
  | some team =>
    if env.db = false then
      .ok ({ s with error := storeError env }, [])
    else if weekEntries s.entries s.weekKey = [] then
      .ok ({ s with
              error := "Add at least one weekly update before generating summary." },
           [])
    else
      match createAiSummary apiKey team.name s.weekKey
              (weekEntries s.entries s.weekKey) doFetch with
      | .error msg => .ok ({ s with error := msg, loadingAi := false }, [])
      | .ok summaryText =>
        match writeSummary with
        | .error msg => .ok ({ s with error := msg, loadingAi := false }, [])
        | .ok _ =>
            .ok ({ s with loadingAi := false },
                 [Write.summary team.id s.weekKey summaryText])

/-- Spec-side definition of the filtered view, written from the spec's words:
"exactly the subset with matching `weekKey`, preserving relative order from
the source list" — structural recursion keeping exactly the matching entries
in source order.  Used only to compare against `weekEntries`. -/
def specFilterByWeek (entries : List Entry) (wk : String) : List Entry :=
  match entries with
  | [] => []
  | e :: rest =>
      if e.weekKey = wk then e :: specFilterByWeek rest wk
      else specFilterByWeek rest wk

/-- `needle` occurs contiguously inside `hay` (as a character sequence). -/
def IsSubstring (needle hay : String) : Prop :=
  ∃ pre post, hay.data = pre ++ needle.data ++ post

/- Concrete fixtures used by witnesses and counterexamples. -/

/-- A handler run returned normally (no exception escaped uncaught). -/
def returnedNormally : Except String (AppState × List Write) → Bool
  | .ok _ => true
  | .error _ => false

/-- An `Env` whose store handle is configured and has no config error. -/
def envOk : Env := ⟨true, ""⟩

/-- A concrete active team. -/
def teamSquad : Team := ⟨"team1", "Squad"⟩

/-- A concrete cached weekly-input entry. -/
def entryAna : Entry := ⟨"e1", "Ana", "Shipped X", "2026-W09"⟩

/-- A state with an active team, one matching cached entry, filled member-name
and update fields, and a stale error message. -/
def sReady : AppState :=
  ⟨"", some teamSquad, "2026-W09", "Ana", " Shipped X ", [entryAna], false,
   "old error"⟩

/-- A state with no active team. -/
def sNoTeam : AppState :=
  ⟨"", none, "2026-W09", "Ana", "Shipped X", [], false, ""⟩

/-- A state about to create a team, name padded with whitespace. -/
def sNewTeam : AppState :=
  ⟨"  Squad  ", none, "2026-W09", "", "", [], false, "old error"⟩

/-- A fetch oracle that always succeeds with a fixed summary text. -/
def fetchOk : String → FetchOutcome := fun _ => .success (some "Summary text")

/-- A string is a substring of any string it suffixes. -/
theorem isSubstring_suffix (a b : String) : IsSubstring b (a ++ b) :=
  ⟨a.data, [], by simp [String.data_append]⟩

/-- Substring occurrence is stable under appending on the right. -/
theorem isSubstring_append_right (n h s : String) :
    IsSubstring n h → IsSubstring n (h ++ s) := by
  rintro ⟨pre, post, hpp⟩
  exact ⟨pre, post ++ s.data, by simp [String.data_append, hpp]⟩

/-- C1: `getWeekKey` on 2026-03-02 (a Monday) returns exactly `"2026-W10"`,
and on 2018-12-31 (a Monday) the year component of the result is the ISO
week-year `"2019"`, not the calendar year 2018 (the full result being
`"2019-W01"`). -/
theorem getWeekKey_fixed_dates :
    getWeekKey 2026 3 2 = "2026-W10" ∧
    (getWeekKey 2018 12 31).take 4 = "2019" ∧
    getWeekKey 2018 12 31 = "2019-W01" := by
  refine ⟨rfl, rfl, rfl⟩

/-- C6: the derived `weekEntries` view equals exactly the sublist of the
cached entries whose `weekKey` field equals the selected week key, preserving
relative order (it coincides with the spec-side recursive filter, is a
sublist of the source, and contains precisely the matching entries); it is a
pure function of the cached list and the week key, performing no effect. -/
theorem weekEntries_filter_spec (es : List Entry) (wk : String) :
    weekEntries es wk = specFilterByWeek es wk ∧
    List.Sublist (weekEntries es wk) es ∧
    (∀ e, e ∈ weekEntries es wk ↔ e ∈ es ∧ e.weekKey = wk) := by
  refine ⟨?_, List.filter_sublist _, fun e => ?_⟩
  · induction es with
    | nil => rfl
    | cons x rest ih =>
        simp only [weekEntries, specFilterByWeek, List.filter_cons] at *
        by_cases hx : x.weekKey = wk
        · simp [hx, ih]
        · simp [hx, ih]
  · simp [weekEntries, List.mem_filter]

/-- The bulleted updates block is a suffix of the built prompt, and the week
key occurs inside it; shared helper for the prompt-content claim. -/
theorem summaryPrompt_parts (tn wk : String) (us : List Entry) :
    IsSubstring
      (String.intercalate "\n"
        (us.map (fun item => "- " ++ item.memberName ++ ": " ++ item.update)))
      (summaryPrompt tn wk us) ∧
    IsSubstring wk (summaryPrompt tn wk us) := by
  constructor
  · exact isSubstring_suffix _ _
  · exact isSubstring_append_right _ _ _ (isSubstring_append_right _ _ _
      (isSubstring_suffix _ _))

/-- C7: the prompt built for summary generation embeds the bulleted block
with one `- {memberName}: {update}` line per entry, joined in caller order,
and contains the week-key string; in particular for team `"Squad"`, week
`"2026-W09"`, and the single entry Ana/"Shipped X" it contains the literal
substrings `"- Ana: Shipped X"` and `"2026-W09"`. -/
theorem summaryPrompt_contains (teamName wk : String) (us : List Entry) :
    IsSubstring
      (String.intercalate "\n"
        (us.map (fun item => "- " ++ item.memberName ++ ": " ++ item.update)))
      (summaryPrompt teamName wk us) ∧
    IsSubstring wk (summaryPrompt teamName wk us) ∧
    IsSubstring "- Ana: Shipped X" (summaryPrompt "Squad" "2026-W09" [entryAna]) ∧
    IsSubstring "2026-W09" (summaryPrompt "Squad" "2026-W09" [entryAna]) := by
  refine ⟨(summaryPrompt_parts teamName wk us).1,
          (summaryPrompt_parts teamName wk us).2, ?_, ?_⟩
  · have h1 := (summaryPrompt_parts "Squad" "2026-W09" [entryAna]).1
    have heq : String.intercalate "\n"
        ([entryAna].map (fun item => "- " ++ item.memberName ++ ": " ++ item.update))
        = "- Ana: Shipped X" := rfl
    rw [heq] at h1
    exact h1
  · exact (summaryPrompt_parts "Squad" "2026-W09" [entryAna]).2

/-- C2 counterexample: with a configured store and a valid team name, a
failing `addDoc` write inside `handleCreateTeam` escapes the handler uncaught
(the run ends in `Except.error`) instead of being caught and recorded in the
shared error slot. -/
theorem createTeam_write_failure_uncaught :
    handleCreateTeam envOk (.error "addDoc failed") sNewTeam =
      .error "addDoc failed" := rfl

/-- C2 (amended): only `handleGenerateSummary` catches its own failures —
it always returns normally for every environment, credential, fetch outcome,
write outcome and state; `handleCreateTeam` and `handleAddEntry` propagate a
failed gateway write uncaught (the raised message escapes the handler)
whenever their validation and precondition checks pass. -/
theorem catch_discipline :
    (∀ env apiKey doFetch wr s,
        returnedNormally (handleGenerateSummary env apiKey doFetch wr s) =
          true) ∧
    (∀ env msg s, (jsTrim s.teamName) ≠ "" → env.db = true →
        handleCreateTeam env (.error msg) s = .error msg) ∧
    (∀ env msg s t, s.activeTeam = some t → env.db = true →
        (jsTrim s.memberName) ≠ "" → (jsTrim s.update) ≠ "" →
        handleAddEntry env (.error msg) s = .error msg) := by
  refine ⟨?_, ?_, ?_⟩
  · intro env apiKey doFetch wr s
    simp only [handleGenerateSummary]
    repeat' split
    all_goals rfl
  · intro env msg s hname hdb
    simp [handleCreateTeam, hname, hdb]
  · intro env msg s t hteam hdb hm hu
    simp [handleAddEntry, hteam, hdb, hm, hu]

/-- C2 witness: concrete runs exercising both halves of the amended claim. -/
theorem catch_discipline_witness :
    returnedNormally
        (handleGenerateSummary envOk none fetchOk (.ok ()) sReady) = true ∧
    handleCreateTeam envOk (.error "boom") sNewTeam = .error "boom" ∧
    handleAddEntry envOk (.error "boom2") sReady = .error "boom2" :=
  ⟨catch_discipline.1 envOk none fetchOk (.ok ()) sReady,
   catch_discipline.2.1 envOk "boom" sNewTeam (by decide) rfl,
   catch_discipline.2.2 envOk "boom2" sReady teamSquad rfl rfl (by decide)
     (by decide)⟩

/-- C3: with an active team, a configured store, and a non-empty filtered
entry list, a failing model call makes `handleGenerateSummary` end with no
summary write, the error slot holding the failure message, and the loading
flag `false`; the success path also ends with the loading flag `false`. -/
theorem generateSummary_failure_isolation (env : Env) (apiKey : Option String)
    (doFetch : String → FetchOutcome) (wr : Except String Unit) (s : AppState)
    (t : Team) (hteam : s.activeTeam = some t) (hdb : env.db = true)
    (hne : weekEntries s.entries s.weekKey ≠ []) :
    (∀ msg,
        createAiSummary apiKey t.name s.weekKey
            (weekEntries s.entries s.weekKey) doFetch = .error msg →
        handleGenerateSummary env apiKey doFetch wr s =
          .ok ({ s with error := msg, loadingAi := false }, [])) ∧
    (∀ text,
        createAiSummary apiKey t.name s.weekKey
            (weekEntries s.entries s.weekKey) doFetch = .ok text →
        wr = .ok () →
        handleGenerateSummary env apiKey doFetch wr s =
          .ok ({ s with error := "", loadingAi := false },
               [Write.summary t.id s.weekKey text])) := by
  constructor
  · intro msg hmsg
    simp [handleGenerateSummary, hteam, hdb, hne, hmsg]
  · intro text htext hwr
    simp [handleGenerateSummary, hteam, hdb, hne, htext, hwr]

/-- C3 witness: with no API key configured, the model call fails and the run
ends with the message in the error slot, no write, and loading `false`. -/
theorem generateSummary_failure_isolation_witness :
    handleGenerateSummary envOk none fetchOk (.ok ()) sReady =
      .ok ({ sReady with
              error := "Missing VITE_GEMINI_API_KEY in .env file.",
              loadingAi := false }, []) :=
  (generateSummary_failure_isolation envOk none fetchOk (.ok ()) sReady
      teamSquad rfl rfl (by decide)).1 _ rfl

/-- C4: a team name empty after trimming makes `handleCreateTeam` record the
validation message and write nothing; with an active team and configured
store, an empty trimmed member name or update makes `handleAddEntry` record
the validation message and write nothing. -/
theorem validation_no_write :
    (∀ env wr s, (jsTrim s.teamName) = "" →
        handleCreateTeam env wr s =
          .ok ({ s with error := "Team name is required." }, [])) ∧
    (∀ env wr s t, s.activeTeam = some t → env.db = true →
        (jsTrim s.memberName) = "" ∨ (jsTrim s.update) = "" →
        handleAddEntry env wr s =
          .ok ({ s with error := "Member name and update are required." },
               [])) := by
  constructor
  · intro env wr s hname
    simp [handleCreateTeam, hname]
  · intro env wr s t hteam hdb hval
    simp [handleAddEntry, hteam, hdb, hval]

/-- C4 witness: an all-whitespace team name and an empty update are rejected
with no write. -/
theorem validation_no_write_witness :
    handleCreateTeam envOk (.ok "tid")
        { sNoTeam with teamName := "   " } =
      .ok ({ sNoTeam with
             teamName := "   ",
             error := "Team name is required." }, []) ∧
    handleAddEntry envOk (.ok ())
        { sReady with update := "  " } =
      .ok ({ sReady with
             update := "  ",
             error := "Member name and update are required." }, []) :=
  ⟨validation_no_write.1 envOk (.ok "tid") { sNoTeam with teamName := "   " }
      (by decide),
   validation_no_write.2 envOk (.ok ()) { sReady with update := "  " }
      teamSquad rfl rfl (Or.inr (by decide))⟩

/-- C5: with no active team, `handleAddEntry` and `handleGenerateSummary`
record the precondition message "Create a team first." and write nothing. -/
theorem precondition_no_write :
    (∀ env wr s, s.activeTeam = none →
        handleAddEntry env wr s =
          .ok ({ s with error := "Create a team first." }, [])) ∧
    (∀ env apiKey doFetch wr s, s.activeTeam = none →
        handleGenerateSummary env apiKey doFetch wr s =
          .ok ({ s with error := "Create a team first." }, [])) := by
  constructor
  · intro env wr s hteam
    simp [handleAddEntry, hteam]
  · intro env apiKey doFetch wr s hteam
    simp [handleGenerateSummary, hteam]

/-- C5 witness: both operations invoked on the team-less state. -/
theorem precondition_no_write_witness :
    handleAddEntry envOk (.ok ()) sNoTeam =
      .ok ({ sNoTeam with error := "Create a team first." }, []) ∧
    handleGenerateSummary envOk (some "k") fetchOk (.ok ()) sNoTeam =
      .ok ({ sNoTeam with error := "Create a team first." }, []) :=
  ⟨precondition_no_write.1 envOk (.ok ()) sNoTeam rfl,
   precondition_no_write.2 envOk (some "k") fetchOk (.ok ()) sNoTeam rfl⟩

/-- C8: on a successful `handleAddEntry`, only the update text field is reset
to the empty string; the member-name field, the selected week key, and every
other form/state field keep their previous values. -/
theorem addEntry_clears_only_update (env : Env) (s : AppState) (t : Team)
    (hteam : s.activeTeam = some t) (hdb : env.db = true)
    (hm : (jsTrim s.memberName) ≠ "") (hu : (jsTrim s.update) ≠ "") :
    ∃ st w, handleAddEntry env (.ok ()) s = .ok (st, w) ∧
      st.update = "" ∧
      st.memberName = s.memberName ∧
      st.weekKey = s.weekKey ∧
      st.teamName = s.teamName ∧
      st.activeTeam = s.activeTeam ∧
      st.entries = s.entries ∧
      st.loadingAi = s.loadingAi := by
  refine ⟨{ s with error := "", update := "" },
          [Write.weeklyInput t.id (jsTrim s.memberName) (jsTrim s.update) s.weekKey],
          ?_, rfl, rfl, rfl, rfl, rfl, rfl, rfl⟩
  simp [handleAddEntry, hteam, hdb, hm, hu]

/-- C8 witness: a concrete successful entry write clears only the update. -/
theorem addEntry_clears_only_update_witness :
    ∃ st w, handleAddEntry envOk (.ok ()) sReady = .ok (st, w) ∧
      st.update = "" ∧
      st.memberName = sReady.memberName ∧
      st.weekKey = sReady.weekKey ∧
      st.teamName = sReady.teamName ∧
      st.activeTeam = sReady.activeTeam ∧
      st.entries = sReady.entries ∧
      st.loadingAi = sReady.loadingAi :=
  addEntry_clears_only_update envOk sReady teamSquad rfl rfl (by decide)
    (by decide)

/-- C9: each handler clears the shared error slot before doing anything else
(its behaviour is independent of the error value it starts from), and a fully
successful run of each handler ends with an empty error slot. -/
theorem error_slot_cleared_first :
    (∀ env wr s e, handleCreateTeam env wr { s with error := e } =
        handleCreateTeam env wr s) ∧
    (∀ env wr s e, handleAddEntry env wr { s with error := e } =
        handleAddEntry env wr s) ∧
    (∀ env apiKey doFetch wr s e,
        handleGenerateSummary env apiKey doFetch wr { s with error := e } =
          handleGenerateSummary env apiKey doFetch wr s) ∧
    (∀ env tid s, (jsTrim s.teamName) ≠ "" → env.db = true →
        ∃ st w, handleCreateTeam env (.ok tid) s = .ok (st, w) ∧
          st.error = "") ∧
    (∀ env s t, s.activeTeam = some t → env.db = true →
        (jsTrim s.memberName) ≠ "" → (jsTrim s.update) ≠ "" →
        ∃ st w, handleAddEntry env (.ok ()) s = .ok (st, w) ∧
          st.error = "") ∧
    (∀ env apiKey doFetch s t text, s.activeTeam = some t → env.db = true →
        weekEntries s.entries s.weekKey ≠ [] →
        createAiSummary apiKey t.name s.weekKey
            (weekEntries s.entries s.weekKey) doFetch = .ok text →
        ∃ st w, handleGenerateSummary env apiKey doFetch (.ok ()) s =
            .ok (st, w) ∧ st.error = "") := by
  refine ⟨fun env wr s e => rfl, fun env wr s e => rfl,
          fun env apiKey doFetch wr s e => rfl, ?_, ?_, ?_⟩
  · intro env tid s hname hdb
    refine ⟨{ s with
              error := "",
              activeTeam := some ⟨tid, (jsTrim s.teamName)⟩,
              teamName := "" },
            [Write.team (jsTrim s.teamName)], ?_, rfl⟩
    simp [handleCreateTeam, hname, hdb]
  · intro env s t hteam hdb hm hu
    refine ⟨{ s with error := "", update := "" },
            [Write.weeklyInput t.id (jsTrim s.memberName) (jsTrim s.update) s.weekKey],
            ?_, rfl⟩
    simp [handleAddEntry, hteam, hdb, hm, hu]
  · intro env apiKey doFetch s t text hteam hdb hne htext
    refine ⟨{ s with error := "", loadingAi := false },
            [Write.summary t.id s.weekKey text], ?_, rfl⟩
    simp [handleGenerateSummary, hteam, hdb, hne, htext]

/-- C9 witness: concrete fully successful runs of all three handlers starting
from states holding a stale error message end with an empty error slot. -/
theorem error_slot_cleared_first_witness :
    (∃ st w, handleCreateTeam envOk (.ok "team1") sNewTeam = .ok (st, w) ∧
        st.error = "") ∧
    (∃ st w, handleAddEntry envOk (.ok ()) sReady = .ok (st, w) ∧
        st.error = "") ∧
    (∃ st w, handleGenerateSummary envOk (some "k") fetchOk (.ok ()) sReady =
        .ok (st, w) ∧ st.error = "") :=
  ⟨error_slot_cleared_first.2.2.2.1 envOk "team1" sNewTeam (by decide) rfl,
   error_slot_cleared_first.2.2.2.2.1 envOk sReady teamSquad rfl rfl
     (by decide) (by decide),
   error_slot_cleared_first.2.2.2.2.2 envOk (some "k") fetchOk sReady
     teamSquad "Summary text" rfl rfl (by decide) rfl⟩

/-- C10: a successful `handleCreateTeam` writes the trimmed team name and
sets the active team's name to that trimmed string; a successful
`handleAddEntry` writes the trimmed member name and trimmed update, while
the weekKey is written verbatim from the form field. -/
theorem persisted_fields_trimmed :
    (∀ env tid s, (jsTrim s.teamName) ≠ "" → env.db = true →
        handleCreateTeam env (.ok tid) s =
          .ok ({ s with
                 error := "",
                 activeTeam := some ⟨tid, (jsTrim s.teamName)⟩,
                 teamName := "" },
               [Write.team (jsTrim s.teamName)])) ∧
    (∀ env s t, s.activeTeam = some t → env.db = true →
        (jsTrim s.memberName) ≠ "" → (jsTrim s.update) ≠ "" →
        handleAddEntry env (.ok ()) s =
          .ok ({ s with error := "", update := "" },
               [Write.weeklyInput t.id (jsTrim s.memberName) (jsTrim s.update)
                  s.weekKey])) := by
  constructor
  · intro env tid s hname hdb
    simp [handleCreateTeam, hname, hdb]
  · intro env s t hteam hdb hm hu
    simp [handleAddEntry, hteam, hdb, hm, hu]

/-- C10 witness: a padded team name `"  Squad  "` is stored as `"Squad"`, and
a padded update `" Shipped X "` is stored as `"Shipped X"` under the verbatim
week key. -/
theorem persisted_fields_trimmed_witness :
    handleCreateTeam envOk (.ok "team1") sNewTeam =
      .ok ({ sNewTeam with
             error := "",
             activeTeam := some ⟨"team1", "Squad"⟩,
             teamName := "" },
           [Write.team "Squad"]) ∧
    handleAddEntry envOk (.ok ()) sReady =
      .ok ({ sReady with error := "", update := "" },
           [Write.weeklyInput "team1" "Ana" "Shipped X" "2026-W09"]) :=
  ⟨persisted_fields_trimmed.1 envOk "team1" sNewTeam (by decide) rfl,
   persisted_fields_trimmed.2 envOk sReady teamSquad rfl rfl (by decide)
     (by decide)⟩

end UpToDead
